import Mathlib

/-!
Shallow embedding, in Lean 4, of the core request/pagination/state-machine
logic of the parkthrive spring-2025 operational scripts, together with
theorems settling the specification claims about that logic.

Embedded source files:
* final/round_2_3_live.py    — rate-aware request executor, cursor paginator,
                               round 2/3 stage-transition orchestrator
* final/mailers.py           — mailer pipeline with terminal Error stage
* copy_of_holds.py           — oldest-Hold-opportunity selection
* finalmay6/missinglot/missinglot.py — cross-account business-address lookup
* finalmay6/find_owners/find_owner.py — target-count early exit in pagination

Modelling conventions: the remote HTTP world is supplied as an explicit
script (a list) of responses, one per attempted call; machine floats in
header values are modelled as rationals (`Rat`); Python dict responses are
modelled by small structures carrying exactly the keys the code consults;
falsy-value checks (`if not x`) are modelled explicitly where the code
performs them.
-/

set_option autoImplicit false

/-! ### Python-style numeric string parsing

`pyFloat` models Python's `float(s)` on the fragment actually exercised by
rate-limit headers: optional surrounding whitespace, an optional sign, a
digit run with an optional single decimal point.  (Exponents, `inf`/`nan`
and underscore separators are outside the model.)  A string outside the
accepted fragment maps to `none`, modelling a raised `ValueError`. -/

/-- Split a character list on a separator character (Python's
`str.split(sep)` for a one-character separator). -/
def splitCharAux (sep : Char) : List Char → List Char → List (List Char)
  | [], cur => [cur.reverse]
  | c :: rest, cur =>
      if c = sep then cur.reverse :: splitCharAux sep rest []
      else splitCharAux sep rest (c :: cur)

def pySplitChar (sep : Char) (s : String) : List String :=
  (splitCharAux sep s.toList []).map String.mk

def listIsPrefixOfB : List Char → List Char → Bool
  | [], _ => true
  | _ :: _, [] => false
  | a :: as, b :: bs => a == b && listIsPrefixOfB as bs

/-- Substring containment (Python's `pat in s`). -/
def containsSub (pat : List Char) : List Char → Bool
  | [] => listIsPrefixOfB pat []
  | c :: rest => listIsPrefixOfB pat (c :: rest) || containsSub pat rest

/-- Python's `str.strip()` (whitespace from both ends). -/
def stripChars (cs : List Char) : List Char :=
  ((cs.dropWhile Char.isWhitespace).reverse.dropWhile Char.isWhitespace).reverse

def pyStrip (s : String) : String :=
  String.mk (stripChars s.toList)

def pyToUpper (s : String) : String :=
  String.mk (s.toList.map Char.toUpper)

def pyToLower (s : String) : String :=
  String.mk (s.toList.map Char.toLower)

def digitsVal (cs : List Char) : Nat :=
  cs.foldl (fun acc c => 10 * acc + (c.toNat - 48)) 0

def pyFloatCore (cs : List Char) : Option Rat :=
  let intPart := cs.takeWhile Char.isDigit
  let rest := cs.dropWhile Char.isDigit
  match rest with
  | [] => if intPart.isEmpty then none else some (digitsVal intPart)
  | '.' :: frac =>
      if frac.all Char.isDigit && !(intPart.isEmpty && frac.isEmpty) then
        some ((digitsVal intPart : Rat) + (digitsVal frac : Rat) / (10 : Rat) ^ frac.length)
      else none
  | _ => none

def pyFloat (s : String) : Option Rat :=
  match stripChars s.toList with
  | [] => none
  | '-' :: rest => (pyFloatCore rest).map (fun q => -q)
  | '+' :: rest => pyFloatCore rest
  | cs => pyFloatCore cs

/-! ### Rate-limit wait resolution (round_2_3_live.make_api_request 23-54,
copy_of_holds.make_api_request, missinglot.make_api_request — identical
header logic; mailers.CloseFetcher._make_request 127-167 adds a body hint). -/

/-- Extraction of the `reset` key from a comma-separated `ratelimit` header:
the first comma-segment containing the substring `reset=` is split on `=`,
element 1 is trimmed, anything from a `;` on is dropped, and the remainder
is parsed as a float.  A parse failure abandons the whole header (the
Python `except` around the `for` loop), yielding `none`. -/
def ratelimitReset (s : String) : Option Rat :=
  match (pySplitChar ',' s).find? (fun part => containsSub "reset=".toList part.toList) with
  | none => none
  | some part =>
      match (pySplitChar '=' part).get? 1 with
      | none => none
      | some v0 =>
          let v1 := pyStrip v0
          let v2 := if v1.toList.contains ';' then pyStrip ((pySplitChar ';' v1).headD v1) else v1
          pyFloat v2

/-- Priority chain of round_2_3_live lines 25-47: a parseable `retry-after`
header wins; otherwise the `ratelimit` header's `reset` key is consulted. -/
def resolvedHint (retryAfter ratelimit : Option String) : Option Rat :=
  match retryAfter.bind pyFloat with
  | some v => some v
  | none => ratelimit.bind ratelimitReset

/-- Line 50, `if not reset_time: reset_time = 5`: the 5-second default is
applied when the hint is unresolved (`None`) or falsy (`0.0`). -/
def waitAfterFalsyCheck (hint : Option Rat) : Rat :=
  match hint with
  | none => 5
  | some v => if v = 0 then 5 else v

/-- Wait duration a 429 resolves to in round_2_3_live (also copy_of_holds
and missinglot, whose 429 handling is textually identical). -/
def resolveWait429 (retryAfter ratelimit : Option String) : Rat :=
  waitAfterFalsyCheck (resolvedHint retryAfter ratelimit)

/-- mailers._make_request lines 153-159: when the headers resolve nothing,
the response body is consulted; `body = none` models a body that fails to
parse as JSON (the hint stays unresolved), `body = some none` models valid
JSON without a `rate_reset` key (`.get('rate_reset', 60)` yields 60), and
`body = some (some v)` models a JSON body carrying `rate_reset = v`. -/
def resolvedHintMailers (retryAfter ratelimit : Option String)
    (body : Option (Option Rat)) : Option Rat :=
  match resolvedHint retryAfter ratelimit with
  | some v => some v
  | none => body.map (fun b => b.getD 60)

/-- Wait duration a 429 resolves to in mailers._make_request. -/
def resolveWait429Mailers (retryAfter ratelimit : Option String)
    (body : Option (Option Rat)) : Rat :=
  waitAfterFalsyCheck (resolvedHintMailers retryAfter ratelimit body)

/-! ### The request executor (round_2_3_live.make_api_request) -/

/-- Body of an HTTP response as `make_api_request` sees it: `response.text`
empty, non-empty but not JSON-parseable, or parsed into a payload `a`. -/
inductive BodyText (α : Type) where
  | empty
  | unparseable
  | parsed (a : α)
deriving DecidableEq

/-- The parts of an HTTP response the executor consults. -/
structure HttpResp (α : Type) where
  status : Nat
  retryAfter : Option String := none
  ratelimit : Option String := none
  body : BodyText α := BodyText.empty

/-- One attempt of the underlying transport: either a network-level failure
(`requests.exceptions.RequestException`) or an HTTP response. -/
inductive Attempt (α : Type) where
  | netErr
  | http (r : HttpResp α)

/-- The dict `make_api_request` hands back: `failure` is
`{"data": [], "cursor": None, "success": False}` (lines 20 and 60),
`softOk` is `{"success": True}` (empty or unparseable 2xx body),
`ok a` is the parsed JSON payload. -/
inductive ApiResult (α : Type) where
  | failure
  | softOk
  | ok (a : α)
deriving DecidableEq

/-- The retry loop of `make_api_request` over a script of transport
attempts, also accumulating the durations passed to `time.sleep`.
`none` means the script was exhausted while the loop still wanted to
retry (the real loop would keep issuing calls).  Mirrors lines 10-74:
a 429 sleeps the resolved wait plus the fixed 0.5 buffer and retries; a
network error sleeps 5 and retries; any other non-2xx returns the failure
dict at once; a 2xx returns its payload (soft success when the body is
empty or unparseable). -/
def makeApiRequestLoop {α : Type} : List (Attempt α) → Option (ApiResult α × List Rat)
  | [] => none
  | Attempt.netErr :: rest =>
      (makeApiRequestLoop rest).map (fun p => (p.1, (5 : Rat) :: p.2))
  | Attempt.http r :: rest =>
      if r.status = 429 then
        (makeApiRequestLoop rest).map
          (fun p => (p.1, (resolveWait429 r.retryAfter r.ratelimit + 1 / 2) :: p.2))
      else if ¬(r.status = 200 ∨ r.status = 201 ∨ r.status = 204) then
        some (ApiResult.failure, [])
      else
        match r.body with
        | BodyText.empty => some (ApiResult.softOk, [])
        | BodyText.unparseable => some (ApiResult.softOk, [])
        | BodyText.parsed a => some (ApiResult.ok a, [])

/-- `make_api_request` including the method dispatch of lines 12-20: an
unsupported method returns the failure dict without touching the
transport. -/
def makeApiRequest {α : Type} (method : String) (script : List (Attempt α)) :
    Option (ApiResult α × List Rat) :=
  if pyToUpper method = "GET" ∨ pyToUpper method = "POST" ∨ pyToUpper method = "PUT" then
    makeApiRequestLoop script
  else some (ApiResult.failure, [])

/-- An attempt the executor absorbs and retries past: a network error or a
429 response. -/
def transientAttempt {α : Type} : Attempt α → Bool
  | Attempt.netErr => true
  | Attempt.http r => decide (r.status = 429)

/-! ### Cursor paginator (round_2_3_live.get_all_leads 88-133; the same loop
shape appears in mailers.CloseFetcher.search_leads 196-240, copy_of_holds
140-156 and missinglot 262-290). -/

/-- The keys of a search response the paginator consults: `data` (absent
key modelled as `none`) and `cursor`.  The executor's failure dict is the
instance `{ data := some [], cursor := none }`. -/
structure PageResp (α : Type) where
  data : Option (List α) := none
  cursor : Option String := none

/-- Python truthiness of the cursor value, `has_more = bool(cursor)`:
absent (`None`) and the empty string are both falsy. -/
def cursorTruthy : Option String → Bool
  | none => false
  | some s => !s.isEmpty

/-- The pagination loop over a script of search responses, one response per
iteration: extend the accumulator with the page's `data` (an absent list
contributes nothing), then continue exactly when the response's cursor is
truthy.  `none` models a script exhausted while `has_more` still held. -/
def getAllLeadsPages {α : Type} : List (PageResp α) → Option (List α)
  | [] => none
  | p :: rest =>
      let batch := p.data.getD []
      if cursorTruthy p.cursor then
        (getAllLeadsPages rest).map (fun more => batch ++ more)
      else some batch

/-! ### Frame behaviour of get_all_leads on the caller's query dict
(round_2_3_live 94-127).  The Python function copies the caller's payload
once (`payload_copy = query_payload.copy()`) and then writes `_fields` and
`cursor` only into the copy.  To make the non-aliasing content provable we
model the two dicts through a small address-indexed heap: `.copy()`
allocates a fresh address, and every subsequent write names an address. -/

/-- Values stored in a query dict: opaque strings (cursors and the like)
and the `_fields` literal of lines 100-102. -/
inductive PVal where
  | str (s : String)
  | fieldsSpec
deriving DecidableEq

/-- A Python dict, top level only: an insertion-ordered association list. -/
abbrev Dict := List (String × PVal)

/-- Dict assignment `d[k] = v`: replace in place if the key exists,
append otherwise. -/
def dictSet (d : Dict) (k : String) (v : PVal) : Dict :=
  match d with
  | [] => [(k, v)]
  | (k0, v0) :: rest => if k0 = k then (k0, v) :: rest else (k0, v0) :: dictSet rest k v

/-- `k in d`. -/
def dictHasKey (d : Dict) (k : String) : Bool :=
  d.any (fun kv => kv.1 == k)

/-- A heap of dicts; an address is an index, `.copy()` allocates at the
next fresh address. -/
abbrev Heap := List Dict

def heapRead (h : Heap) (a : Nat) : Dict := h.getD a []

def heapWrite (h : Heap) (a : Nat) (k : String) (v : PVal) : Heap :=
  h.set a (dictSet (heapRead h a) k v)

/-- Loop body of get_all_leads against the heap: at the top of each
iteration the cursor carried over from the previous response, when truthy,
is written into the copy (line 110); the caller's dict at `qAddr` is never
named. -/
def getAllLeadsHeapLoop {α : Type} (copyAddr : Nat) :
    Heap → Option String → List (PageResp α) → Heap × Option (List α)
  | h, _, [] => (h, none)
  | h, cursor, p :: rest =>
      let h1 := if cursorTruthy cursor then heapWrite h copyAddr "cursor" (PVal.str (cursor.getD "")) else h
      let batch := p.data.getD []
      if cursorTruthy p.cursor then
        let next := getAllLeadsHeapLoop copyAddr h1 p.cursor rest
        (next.1, next.2.map (fun more => batch ++ more))
      else (h1, some batch)

/-- get_all_leads over the heap: copy the caller's payload to a fresh
address, default `_fields` into the copy when absent (lines 99-102), then
run the pagination loop.  Returns the final heap and the accumulated
leads. -/
def getAllLeadsHeap {α : Type} (h : Heap) (qAddr : Nat) (script : List (PageResp α)) :
    Heap × Option (List α) :=
  let copyAddr := h.length
  let h1 := h ++ [heapRead h qAddr]
  let h2 :=
    if dictHasKey (heapRead h1 copyAddr) "_fields" then h1
    else heapWrite h1 copyAddr "_fields" PVal.fieldsSpec
  getAllLeadsHeapLoop copyAddr h2 none script

/-! ### Stage-transition orchestrator (round_2_3_live.main 135-279) -/

/-- One entry of the `status_updates` table (lines 161-172). -/
structure StatusInfo where
  newStatus : String
  template : String
  resetDates : Bool
deriving DecidableEq

/-- Opportunity status id for round 1 ("Status 1"). -/
def stat1 : String := "stat_YM4zWiayFRmMPX81kVRtUc55bCONbHzCun81YvCU8xJ"

/-- Opportunity status id for round 2 ("Status 2"). -/
def stat2 : String := "stat_etKn0Polby4XpPZjd5JxhUjVqovplh5uv8HrWDnpClm"

/-- Opportunity status id for round 3 ("Status 3"). -/
def stat3 : String := "stat_hrU7Gd0liwAfY3TCJ1IA5k5RxSzIKaBJYfNEbtmg3Yc"

/-- PostGrid template id used for the Stage 1 → 2 transition. -/
def templateRound2 : String := "template_epFxkRdNuHXiR8mihVsUCe"

/-- PostGrid template id used for the Stage 2 → 3 transition. -/
def templateRound3 : String := "template_jQgW1CnJ9BdDikMPt1znox"

/-- The static transition table of lines 161-172: Stage 1 → Stage 2 and
Stage 2 → Stage 3, each with its mailing template. -/
def statusUpdates : List (String × StatusInfo) :=
  [(stat1, { newStatus := stat2, template := templateRound2, resetDates := false }),
   (stat2, { newStatus := stat3, template := templateRound3, resetDates := false })]

/-- The opportunity-detail fields main consults, together with the
environment's answers for the two writes the transition performs:
`childPutOk` is `update_response.get('success', True)` of the opportunity
PUT and `parentPutOk` the same for the subsequent lead PUT (an executor
failure dict carries `success = False`; any other reply counts as
success). -/
structure OppDetailS where
  statusId : String
  mailerDates : Option String
  childPutOk : Bool
  parentPutOk : Bool
deriving DecidableEq

/-- An opportunity reference under a lead; `detail = none` models a detail
response that is not a dict or lacks `status_id` (line 205's guard). -/
structure OppS where
  id : String
  detail : Option OppDetailS
deriving DecidableEq

/-- A lead as returned by the search, with its environment data. -/
structure LeadS where
  id : String
  displayName : String
  opps : List OppS
deriving DecidableEq

/-- The payload of the opportunity PUT (lines 222-229). -/
structure OppUpdate where
  statusId : String
  mailerDates : String
  template : Option String
deriving DecidableEq

/-- Outcome of processing one opportunity of a lead. -/
inductive OppRes where
  | noDetail
  | notEligible
  | success (u : OppUpdate)
  | childFailed (u : OppUpdate)
  | parentFailed (u : OppUpdate)
deriving DecidableEq

/-- Lines 198-260 for a single opportunity: skip when detail is unusable,
skip when the current status has no table entry, otherwise build the
update payload (appending today to the running mailer-date list, line
219) and issue the two writes; the transition succeeds only when both
report success. -/
def processOpp (today : String) (o : OppS) : OppRes :=
  match o.detail with
  | none => OppRes.noDetail
  | some d =>
      match statusUpdates.lookup d.statusId with
      | none => OppRes.notEligible
      | some info =>
          let newDates :=
            match d.mailerDates with
            | some s => if s ≠ "" then s ++ "," ++ today else today
            | none => today
          let u : OppUpdate :=
            { statusId := info.newStatus
              mailerDates := newDates
              template := if info.template ≠ "" then some info.template else none }
          if d.childPutOk then
            if d.parentPutOk then OppRes.success u else OppRes.parentFailed u
          else OppRes.childFailed u

def OppRes.succCount : OppRes → Nat
  | OppRes.success _ => 1
  | _ => 0

def OppRes.isSuccess : OppRes → Bool
  | OppRes.success _ => true
  | _ => false

/-- The per-lead status line printed at lines 262-265. -/
inductive LeadOutcome where
  | ok
  | noEligible
  | noOpps
deriving DecidableEq

/-- Per-lead result: outcomes of its opportunities, the number of
successful transitions it contributed to `successful_updates`, and the
status line the lead ends with. -/
structure LeadRes where
  results : List OppRes
  succ : Nat
  outcome : LeadOutcome
deriving DecidableEq

def processLead (today : String) (l : LeadS) : LeadRes :=
  let results := l.opps.map (processOpp today)
  let succ := (results.map OppRes.succCount).sum
  let updated := results.any OppRes.isSuccess
  { results := results
    succ := succ
    outcome :=
      if !updated && !l.opps.isEmpty then LeadOutcome.noEligible
      else if l.opps.isEmpty then LeadOutcome.noOpps
      else LeadOutcome.ok }

/-- The final summary of lines 270-279.  `failedPrinted` is the literal
`total_leads - successful_updates` the script prints as "Failed to
process" (an `Int`, as the Python subtraction is not clamped). -/
structure RunStats where
  attempted : Nat
  succeeded : Nat
  ineligible : Nat
  failedPrinted : Int
deriving DecidableEq

/-- The orchestrator run over an in-memory lead list: per-lead processing
in order, `successful_updates` accumulated across leads, and the summary
counters. `ineligible` counts leads that end with the explicit
"No eligible opportunities for update" line. -/
def runMain (today : String) (leads : List LeadS) : RunStats :=
  { attempted := leads.length
    succeeded := (leads.map (fun l => (processLead today l).succ)).sum
    ineligible := leads.countP (fun l => (processLead today l).outcome == LeadOutcome.noEligible)
    failedPrinted :=
      (leads.length : Int) - ((leads.map (fun l => (processLead today l).succ)).sum : Nat) }

/-! ### The end-to-end scenario of claim C1: 250 candidates over three
pages (100/100/50), the first 40 eligible for Stage 1 → 2, every write
succeeding. -/

/-- Fixed run date for the scenario. -/
def todayC1 : String := "05/06/2025"

/-- Candidate record number `i`: one opportunity, in Stage 1 (eligible)
for `i < 40` and in Stage 3 (no table entry, hence ineligible)
otherwise; both writes succeed. -/
def mkLeadC1 (i : Nat) : LeadS :=
  { id := "lead_" ++ toString i
    displayName := "Lead " ++ toString i
    opps := [{ id := "oppo_" ++ toString i
               detail := some { statusId := if i < 40 then stat1 else stat3
                                mailerDates := none
                                childPutOk := true
                                parentPutOk := true } }] }

/-- A fabricated search page holding candidates `lo, …, lo+n-1`. -/
def pageC1 (lo n : Nat) (cur : Option String) : PageResp LeadS :=
  { data := some ((List.range n).map (fun j => mkLeadC1 (lo + j))), cursor := cur }

/-- Three pages of 100/100/50 candidates; cursor present, present, absent. -/
def scriptC1 : List (PageResp LeadS) :=
  [pageC1 0 100 (some "cursor_1"), pageC1 100 100 (some "cursor_2"), pageC1 200 50 none]

/-- The candidate set the paginator returns for the scenario. -/
def leadsC1 : List LeadS := (getAllLeadsPages scriptC1).getD []

/-! ### Oldest-Hold-opportunity selection (copy_of_holds.process_leads
195-234).  The citation-date string of each Hold opportunity is parsed by
trying `strptime` with the formats `%m/%d/%Y`, `%Y-%m-%d`, `%m-%d-%Y`,
`%d/%m/%Y` in that order; the strictly oldest parseable candidate wins. -/

/-- Gregorian leap year, as `datetime` validates day-of-month. -/
def leapYear (y : Nat) : Bool :=
  y % 4 == 0 && (!(y % 100 == 0) || y % 400 == 0)

def daysInMonth (y m : Nat) : Nat :=
  if m = 2 then (if leapYear y then 29 else 28)
  else if m = 4 ∨ m = 6 ∨ m = 9 ∨ m = 11 then 30
  else 31

structure DateYMD where
  year : Nat
  month : Nat
  day : Nat
deriving DecidableEq

/-- Chronological sort key; injective on valid dates since month ≤ 12 and
day ≤ 31. -/
def dateKey (d : DateYMD) : Nat :=
  d.year * 10000 + d.month * 100 + d.day

/-- A `%m` or `%d` field: one or two digits (CPython's `_strptime`
matches these with a 1-2 digit regex). -/
def twoDigitField (s : String) : Option Nat :=
  if (s.length == 1 || s.length == 2) && s.toList.all Char.isDigit then
    some (digitsVal s.toList)
  else none

/-- A `%Y` field: exactly four digits in CPython's `_strptime`. -/
def yearField (s : String) : Option Nat :=
  if s.length == 4 && s.toList.all Char.isDigit then some (digitsVal s.toList) else none

/-- Range validation `strptime` performs when building the `datetime`
(month 1-12, day 1-days-in-month, year ≥ MINYEAR). -/
def mkDate (y m d : Nat) : Option DateYMD :=
  if 1 ≤ y ∧ 1 ≤ m ∧ m ≤ 12 ∧ 1 ≤ d ∧ d ≤ daysInMonth y m then
    some { year := y, month := m, day := d }
  else none

/-- The four accepted citation-date formats, in the code's fixed order. -/
inductive DateFormat where
  | mdySlash
  | ymdDash
  | mdyDash
  | dmySlash
deriving DecidableEq

/-- `datetime.strptime(s, fmt)` for the four formats: the string must
split on the format's separator into exactly three fields of the right
widths, which must form a valid date. -/
def strptimeModel (fmt : DateFormat) (s : String) : Option DateYMD :=
  match fmt with
  | DateFormat.mdySlash =>
      match pySplitChar '/' s with
      | [ms, ds, ys] => do
          let m ← twoDigitField ms
          let d ← twoDigitField ds
          let y ← yearField ys
          mkDate y m d
      | _ => none
  | DateFormat.ymdDash =>
      match pySplitChar '-' s with
      | [ys, ms, ds] => do
          let y ← yearField ys
          let m ← twoDigitField ms
          let d ← twoDigitField ds
          mkDate y m d
      | _ => none
  | DateFormat.mdyDash =>
      match pySplitChar '-' s with
      | [ms, ds, ys] => do
          let m ← twoDigitField ms
          let d ← twoDigitField ds
          let y ← yearField ys
          mkDate y m d
      | _ => none
  | DateFormat.dmySlash =>
      match pySplitChar '/' s with
      | [ds, ms, ys] => do
          let d ← twoDigitField ds
          let m ← twoDigitField ms
          let y ← yearField ys
          mkDate y m d
      | _ => none

/-- `date_formats` of line 212, in source order. -/
def dateFormats : List DateFormat :=
  [DateFormat.mdySlash, DateFormat.ymdDash, DateFormat.mdyDash, DateFormat.dmySlash]

/-- Lines 209-222: try each format in order, keeping the first success;
a string no format accepts yields `none` (the candidate is skipped). -/
def parseCitationDate (s : String) : Option DateYMD :=
  dateFormats.findSome? (fun f => strptimeModel f s)

/-- A Hold opportunity as the selection loop sees it: `citationDate` is
the value of the citation-date custom field, `none` when the key is
absent (or the value is `None`); the loop additionally skips an empty
string (line 206's falsiness check). -/
structure HoldOpp where
  id : String
  citationDate : Option String
deriving DecidableEq

/-- The comparable key the loop derives from a candidate, when any. -/
def holdDateKey (o : HoldOpp) : Option Nat :=
  match o.citationDate with
  | none => none
  | some s => if s = "" then none else (parseCitationDate s).map dateKey

/-- The selection fold of lines 200-230: candidates without a parseable
date are skipped; a candidate strictly older than the current best
replaces it (ties keep the earlier candidate). -/
def selectOldestAux : Option (HoldOpp × Nat) → List HoldOpp → Option (HoldOpp × Nat)
  | best, [] => best
  | best, o :: rest =>
      match holdDateKey o with
      | none => selectOldestAux best rest
      | some k =>
          match best with
          | none => selectOldestAux (some (o, k)) rest
          | some (b, kb) =>
              if k < kb then selectOldestAux (some (o, k)) rest
              else selectOldestAux (some (b, kb)) rest

/-- The oldest Hold opportunity of a lead, if any candidate has a
parseable citation date. -/
def selectOldest (opps : List HoldOpp) : Option HoldOpp :=
  (selectOldestAux none opps).map Prod.fst

/-! ### Mailer pipeline failure escalation (mailers.main 623-704,
update_lead_status_to_error 552-583). -/

/-- The lead fields main's guards consult out of `get_lead_data`. -/
structure MailerLeadData where
  template : String
  firstName : String
  lastName : String
  address : String
deriving DecidableEq

/-- What `send_to_postgrid` hands back: a success dict with the vendor's
letter payload, or a failure dict carrying an HTTP status (`none` when
the exception had no response — printed as "None") and an error
message. -/
inductive PGResult where
  | success (letterId : String)
  | failure (statusCode : Option Nat) (errMsg : String)
deriving DecidableEq

/-- How fetching/validating a lead's data turned out: `ok none` models a
falsy `lead_data`, `raised msg` an exception escaping into the per-lead
handler (line 695). -/
inductive LeadFetchOutcome where
  | ok (d : Option MailerLeadData)
  | raised (msg : String)
deriving DecidableEq

/-- One lead of a mailer run, with the environment's answers for its
vendor call (`postgrid = none` models `send_to_postgrid` returning
`None`). -/
structure MailerLeadS where
  leadId : String
  fetch : LeadFetchOutcome
  postgrid : Option PGResult
deriving DecidableEq

/-- The pair of writes `update_lead_status_to_error` issues: a status PUT
moving the lead to the terminal Error stage and a note POST carrying the
audit note. -/
structure ErrAct where
  statusId : String
  noteHtml : String
deriving DecidableEq

/-- The terminal Error stage id of line 561. -/
def errorStatusId : String := "stat_j2Fj190JXd0WWx1UnMyuVd57SeplIVNnvt9DKyfSNSb"

/-- The audit note body of line 574. -/
def errorNoteHtml (today msg : String) : String :=
  "<body><p><strong>PostGrid Error (" ++ today ++ "):</strong> " ++ msg ++ "</p></body>"

def mkErrAct (today msg : String) : ErrAct :=
  { statusId := errorStatusId, noteHtml := errorNoteHtml today msg }

/-- The f-string rendering of the PostGrid failure's status code
(`None` when the failure dict carries `status_code = None`). -/
def pgCodeStr : Option Nat → String
  | none => "None"
  | some c => toString c

/-- Per-lead accounting: counter increments and the Error-stage action
issued, if any. -/
structure MStep where
  succInc : Nat
  failInc : Nat
  errorAction : Option ErrAct
deriving DecidableEq

/-- The per-lead dispatch of main's loop (lines 623-704): each of the
five unexpected conditions — raised exception, falsy lead data, missing
template, missing required contact field, vendor failure — moves the
lead to the Error stage with a note and counts it failed; only a vendor
success counts it succeeded. -/
def processMailerLead (today : String) (s : MailerLeadS) : MStep :=
  match s.fetch with
  | LeadFetchOutcome.raised msg => { succInc := 0, failInc := 1, errorAction := some (mkErrAct today msg) }
  | LeadFetchOutcome.ok none =>
      { succInc := 0, failInc := 1, errorAction := some (mkErrAct today "No data found") }
  | LeadFetchOutcome.ok (some d) =>
      if d.template = "" then
        { succInc := 0, failInc := 1, errorAction := some (mkErrAct today "No template ID found") }
      else if d.firstName = "" ∨ d.lastName = "" ∨ d.address = "" then
        { succInc := 0, failInc := 1
          errorAction := some (mkErrAct today "Missing required contact information") }
      else
        match s.postgrid with
        | some (PGResult.success _) => { succInc := 1, failInc := 0, errorAction := none }
        | some (PGResult.failure code msg) =>
            { succInc := 0, failInc := 1
              errorAction := some (mkErrAct today ("Error " ++ pgCodeStr code ++ " - " ++ msg)) }
        | none =>
            { succInc := 0, failInc := 1
              errorAction := some (mkErrAct today "Error Unknown - Failed to connect") }

/-- Run summary of the mailer loop (lines 706-714), plus the sequence of
Error-stage actions issued along the way.  Every lead of the list is
processed: a failure never aborts the run. -/
structure MailerStats where
  processed : Nat
  succ : Nat
  fail : Nat
  errors : List ErrAct
deriving DecidableEq

def runMailer (today : String) (leads : List MailerLeadS) : MailerStats :=
  { processed := leads.length
    succ := (leads.map (fun l => (processMailerLead today l).succInc)).sum
    fail := (leads.map (fun l => (processMailerLead today l).failInc)).sum
    errors := leads.filterMap (fun l => (processMailerLead today l).errorAction) }

/-- The five unexpected conditions of claim C6, read off the code's
branches. -/
def unexpectedCondition (s : MailerLeadS) : Prop :=
  (∃ msg, s.fetch = LeadFetchOutcome.raised msg) ∨
  s.fetch = LeadFetchOutcome.ok none ∨
  (∃ d, s.fetch = LeadFetchOutcome.ok (some d) ∧
    (d.template = "" ∨ d.firstName = "" ∨ d.lastName = "" ∨ d.address = "")) ∨
  (∃ d, s.fetch = LeadFetchOutcome.ok (some d) ∧
    d.template ≠ "" ∧ d.firstName ≠ "" ∧ d.lastName ≠ "" ∧ d.address ≠ "" ∧
    ∀ lid, s.postgrid ≠ some (PGResult.success lid))

/-! ### Cross-account business-address lookup
(missinglot.get_business_address_from_pt 128-243 and the per-opportunity
caller inside update_missing_lot_addresses 304-347). -/

/-- One address record of the PT-account lead. -/
structure PtAddress where
  label : String
  address1 : String
  address2 : String
  city : String
  state : String
  zipcode : String
deriving DecidableEq

/-- Lines 207-222 / 227-241: join the non-empty address lines with a
space, the city/state/zip group comma-separated. -/
def formatPtAddress (a : PtAddress) : String :=
  let parts :=
    (if a.address1 ≠ "" then [a.address1] else []) ++
    (if a.address2 ≠ "" then [a.address2] else []) ++
    (if a.city ≠ "" then
      [String.intercalate ", "
        ([a.city] ++ (if a.state ≠ "" then [a.state] else []) ++
         (if a.zipcode ≠ "" then [a.zipcode] else []))]
     else [])
  String.intercalate " " parts

structure PtLead where
  id : String
  addresses : List PtAddress
deriving DecidableEq

/-- The PT account as the lookup sees it: whether the search POST avoided
the executor's failure dict, which lead ids it returned, and the detail
answer per lead id (`none` = failure dict). -/
structure PtEnv where
  searchOk : Bool
  results : List String
  detail : String → Option PtLead

/-- `get_business_address_from_pt`: empty Lot UID, failed search, no
matching lead, failed detail fetch, or a matched lead with no addresses
all yield the `None` outcome; otherwise the first `business`-labelled
address (falling back to the first address) is formatted. -/
def getBusinessAddressFromPt (lotUid : String) (env : PtEnv) : Option String :=
  if pyStrip lotUid = "" then none
  else if env.searchOk = false then none
  else
    match env.results with
    | [] => none
    | firstId :: _ =>
        match env.detail firstId with
        | none => none
        | some lead =>
            match lead.addresses.find? (fun a => pyToLower a.label == "business") with
            | some a => some (formatPtAddress a)
            | none =>
                match lead.addresses with
                | [] => none
                | a0 :: _ => some (formatPtAddress a0)

/-- One opportunity of the caller loop (update_missing_lot_addresses
304-347) with its environment: detail fetch outcome, current Lot
Address / Lot UID custom-field values (`none` = absent), the PT account,
and the PUT's reported success. -/
structure MLOppS where
  oppId : String
  detailOk : Bool
  lotAddress : Option String
  lotUid : Option String
  ptEnv : PtEnv
  putOk : Bool

/-- What the caller did with one opportunity. -/
inductive MLAction where
  | skippedDetailFail
  | skippedHasAddress
  | missingBoth
  | noBusinessAddress
  | updated (addr : String)
  | updateFailed
deriving DecidableEq

/-- Lines 318-347 once the Lot Address is missing: consult the Lot UID,
then the PT lookup; a `None` business address skips the update. -/
def processMLOppMissing (o : MLOppS) : MLAction × Nat :=
  match o.lotUid with
  | none => (MLAction.missingBoth, 0)
  | some u =>
      if u = "" ∨ pyStrip u = "" then (MLAction.missingBoth, 0)
      else
        match getBusinessAddressFromPt u o.ptEnv with
        | none => (MLAction.noBusinessAddress, 0)
        | some addr => if o.putOk then (MLAction.updated addr, 1) else (MLAction.updateFailed, 0)

/-- The full per-opportunity dispatch (returns the action and the
`updated_count` increment). -/
def processMLOpp (o : MLOppS) : MLAction × Nat :=
  if o.detailOk = false then (MLAction.skippedDetailFail, 0)
  else
    match o.lotAddress with
    | none => processMLOppMissing o
    | some s => if pyStrip s = "" then processMLOppMissing o else (MLAction.skippedHasAddress, 0)

/-! ### Target-count early exit (find_owner.get_leads_with_data 310-361). -/

/-- One search page, with the per-lead detail resolution already applied:
`resolved` is exactly the list of `lead_data` records the page appends. -/
structure FOPage (α : Type) where
  resolved : List α
  cursor : Option String
deriving DecidableEq

/-- The loop of lines 317-359: append the whole page, then stop when the
accumulated total has reached the target, else continue while a cursor
remains. -/
def getLeadsWithDataLoop {α : Type} (target : Nat) (acc : List α) :
    List (FOPage α) → List α
  | [] => acc
  | p :: rest =>
      let acc1 := acc ++ p.resolved
      if target ≤ acc1.length then acc1
      else if cursorTruthy p.cursor then getLeadsWithDataLoop target acc1 rest
      else acc1

def getLeadsWithData {α : Type} (target : Nat) (pages : List (FOPage α)) : List α :=
  getLeadsWithDataLoop target [] pages

/-- Total number of resolved leads on the first `k` pages. -/
def cumFO {α : Type} : List (FOPage α) → Nat → Nat
  | _, 0 => 0
  | [], _ + 1 => 0
  | p :: rest, k + 1 => p.resolved.length + cumFO rest k

/-! ### Concrete witness scenarios -/

/-- A lead whose single eligible opportunity write succeeds but whose
lead write fails (claim C2's partial-transition case). -/
def leadC2w : LeadS :=
  { id := "lead_w"
    displayName := "Witness Lead"
    opps := [{ id := "oppo_w"
               detail := some { statusId := stat1, mailerDates := none
                                childPutOk := true, parentPutOk := false } }] }

/-- A mailer lead whose resolved data lacks a template id (claim C6). -/
def mailerLeadC6w : MailerLeadS :=
  { leadId := "lead_m"
    fetch := LeadFetchOutcome.ok (some { template := "", firstName := "Ann"
                                         lastName := "Lee", address := "1 Main St" })
    postgrid := none }

/-! ## Theorems -/

/-- C7: for every response with a non-2xx status other than 429, the
executor returns the empty/failure dict to the caller at once — no
exception (the model is total on a response), no retry (the rest of the
script is untouched); and any leading run of 429s and network-level
failures is fully absorbed: the caller sees exactly the definitive result
the executor would produce on the remaining script. -/
theorem nonretryable_error_result_c7 :
    (∀ (α : Type) (r : HttpResp α) (rest : List (Attempt α)),
        r.status ≠ 429 → ¬(r.status = 200 ∨ r.status = 201 ∨ r.status = 204) →
        makeApiRequestLoop (Attempt.http r :: rest) = some (ApiResult.failure, [])) ∧
    (∀ (α : Type) (pre script : List (Attempt α)),
        (∀ a ∈ pre, transientAttempt a = true) →
        (makeApiRequestLoop (pre ++ script)).map Prod.fst =
          (makeApiRequestLoop script).map Prod.fst) := by
  constructor
  · intro α r rest h429 hok
    simp [makeApiRequestLoop, h429, hok]
  · intro α pre script hpre
    induction pre with
    | nil => simp
    | cons a pre ih =>
        have ha := hpre a (by simp)
        have hrest : ∀ b ∈ pre, transientAttempt b = true := fun b hb => hpre b (by simp [hb])
        cases a with
        | netErr =>
            simp only [List.cons_append, makeApiRequestLoop, Option.map_map]
            exact ih hrest
        | http r =>
            have h429 : r.status = 429 := by
              simpa [transientAttempt] using ha
            simp only [List.cons_append, makeApiRequestLoop, h429, eq_self_iff_true, if_true,
              Option.map_map]
            exact ih hrest

/-- C3 (amended): on every 429 the wait is resolved by checking, in
priority order, a parseable retry-after header and then the ratelimit
header's comma-separated `reset` key (mailers additionally consults a
body-embedded hint when the headers resolve nothing); the fixed default
of 5 seconds is used when no source resolves a value or when the resolved
value equals 0; a resolved value is otherwise used as-is — a negative
parseable header therefore yields a negative wait; and a fixed buffer of
0.5 seconds is always added to the used wait before sleeping and
retrying. -/
theorem rate_limit_wait_resolution_c3 :
    (∀ (ra rl : Option String) (s : String) (v : Rat),
        ra = some s → pyFloat s = some v → resolvedHint ra rl = some v) ∧
    (∀ (ra rl : Option String), ra.bind pyFloat = none →
        resolvedHint ra rl = rl.bind ratelimitReset) ∧
    (∀ (ra rl : Option String) (body : Option (Option Rat)),
        resolvedHint ra rl = none →
        resolvedHintMailers ra rl body = body.map (fun b => b.getD 60)) ∧
    (∀ v : Rat, v ≠ 0 → waitAfterFalsyCheck (some v) = v) ∧
    waitAfterFalsyCheck none = 5 ∧
    waitAfterFalsyCheck (some 0) = 5 ∧
    (∀ (α : Type) (r : HttpResp α) (rest : List (Attempt α)), r.status = 429 →
        makeApiRequestLoop (Attempt.http r :: rest) =
          (makeApiRequestLoop rest).map
            (fun p => (p.1, (resolveWait429 r.retryAfter r.ratelimit + 1 / 2) :: p.2))) := by
  refine ⟨?_, ?_, ?_, ?_, rfl, by norm_num [waitAfterFalsyCheck], ?_⟩
  · intro ra rl s v hra hv
    simp [resolvedHint, hra, hv]
  · intro ra rl hra
    simp [resolvedHint, hra]
  · intro ra rl body h
    simp [resolvedHintMailers, h]
  · intro v hv
    simp [waitAfterFalsyCheck, hv]
  · intro α r rest h429
    simp [makeApiRequestLoop, h429]

/-- C3 counterexample: a retry-after header that parses to 0 is a
resolved source, yet the executor falls back to the 5-second default (so
the default is not used "exactly when no source resolves"); a retry-after
of "-3" resolves to a negative wait (so the resolved wait is not always
≥ 0); and in mailers a JSON body without a rate hint produces a 60-second
wait rather than the 5-second default. -/
theorem rate_limit_wait_resolution_c3_counterexample :
    resolvedHint (some "0") none = some 0 ∧
    resolveWait429 (some "0") none = 5 ∧
    resolveWait429 (some "-3") none = -3 ∧
    ¬(0 ≤ resolveWait429 (some "-3") none) ∧
    resolveWait429Mailers none none (some none) = 60 := by
  decide

/-- C4: for any page sequence in which every page but the last carries a
(truthy) cursor and the last does not, the paginator returns exactly the
concatenation of all pages' item lists, each item once, in page order —
including pages whose item list is empty or absent, which continue the
loop as long as their cursor is present. -/
theorem pagination_completeness_c4 (α : Type) (mids : List (PageResp α)) (last : PageResp α)
    (hmid : ∀ p ∈ mids, cursorTruthy p.cursor = true)
    (hlast : cursorTruthy last.cursor = false) :
    getAllLeadsPages (mids ++ [last]) =
      some (((mids ++ [last]).map (fun p => p.data.getD [])).flatten) := by
  induction mids with
  | nil => simp [getAllLeadsPages, hlast]
  | cons p rest ih =>
      have hp := hmid p (by simp)
      have hrest : ∀ q ∈ rest, cursorTruthy q.cursor = true := fun q hq =>
        hmid q (List.mem_cons_of_mem _ hq)
      simp [getAllLeadsPages, hp, ih hrest]

/-- C4 witness: three fabricated pages — two items, then an empty page
that still carries a cursor, then one item with no cursor — paginate to
exactly the three items. -/
theorem pagination_completeness_c4_witness :
    getAllLeadsPages
      [({ data := some [1, 2], cursor := some "a" } : PageResp Nat),
        { data := none, cursor := some "b" },
        { data := some [3], cursor := none }] = some [1, 2, 3] := by
  have h := pagination_completeness_c4 Nat
    [{ data := some [1, 2], cursor := some "a" }, { data := none, cursor := some "b" }]
    { data := some [3], cursor := none }
    (by decide) (by decide)
  exact h.trans (by decide)

/-- Reading an address other than the one written is unaffected. -/
theorem heapRead_set_ne (h : Heap) (a b : Nat) (d : Dict) (hab : a ≠ b) :
    heapRead (h.set a d) b = heapRead h b := by
  unfold heapRead
  induction h generalizing a b with
  | nil => simp
  | cons x xs ih =>
      cases a with
      | zero =>
          cases b with
          | zero => exact absurd rfl hab
          | succ b => simp
      | succ a =>
          cases b with
          | zero => simp
          | succ b =>
              simp only [List.set_cons_succ, List.getD_cons_succ]
              exact ih a b (fun h => hab (by rw [h]))

theorem heapRead_write_ne (h : Heap) (a b : Nat) (k : String) (v : PVal) (hab : a ≠ b) :
    heapRead (heapWrite h a k v) b = heapRead h b :=
  heapRead_set_ne h a b _ hab

theorem heapRead_append_lt (h : Heap) (d : Dict) (b : Nat) (hb : b < h.length) :
    heapRead (h ++ [d]) b = heapRead h b := by
  unfold heapRead
  induction h generalizing b with
  | nil => simp at hb
  | cons x xs ih =>
      cases b with
      | zero => simp
      | succ b =>
          simp only [List.cons_append, List.getD_cons_succ]
          exact ih b (by simpa using hb)

/-- The pagination loop writes only at the copy's address. -/
theorem getAllLeadsHeapLoop_frame (α : Type) (copyAddr qAddr : Nat) (hne : copyAddr ≠ qAddr) :
    ∀ (script : List (PageResp α)) (h : Heap) (cursor : Option String),
      heapRead (getAllLeadsHeapLoop copyAddr h cursor script).1 qAddr = heapRead h qAddr := by
  intro script
  induction script with
  | nil => intro h cursor; rfl
  | cons p rest ih =>
      intro h cursor
      by_cases hcur : cursorTruthy cursor = true
      · by_cases hp : cursorTruthy p.cursor = true
        · simp only [getAllLeadsHeapLoop, hcur, hp, if_true]
          rw [ih, heapRead_write_ne _ _ _ _ _ hne]
        · simp only [getAllLeadsHeapLoop, hcur, hp, if_true, Bool.false_eq_true, if_false]
          rw [heapRead_write_ne _ _ _ _ _ hne]
      · rw [Bool.not_eq_true] at hcur
        by_cases hp : cursorTruthy p.cursor = true
        · simp only [getAllLeadsHeapLoop, hcur, hp, if_true, Bool.false_eq_true, if_false]
          rw [ih]
        · simp only [getAllLeadsHeapLoop, hcur, hp, Bool.false_eq_true, if_false]

/-- C10: get_all_leads never mutates the caller's query dict: the cursor
and any injected `_fields` land only on the `.copy()`, so the caller's
top-level mapping is identical before and after the call — in particular
it gains no "cursor" key. -/
theorem pagination_template_frame_c10 (α : Type) (h : Heap) (qAddr : Nat)
    (script : List (PageResp α)) (hq : qAddr < h.length) :
    heapRead (getAllLeadsHeap h qAddr script).1 qAddr = heapRead h qAddr ∧
    (dictHasKey (heapRead h qAddr) "cursor" = false →
      dictHasKey (heapRead (getAllLeadsHeap h qAddr script).1 qAddr) "cursor" = false) := by
  have hne : h.length ≠ qAddr := Nat.ne_of_gt hq
  have main : heapRead (getAllLeadsHeap h qAddr script).1 qAddr = heapRead h qAddr := by
    unfold getAllLeadsHeap
    rw [getAllLeadsHeapLoop_frame α h.length qAddr hne]
    by_cases hf : dictHasKey (heapRead (h ++ [heapRead h qAddr]) h.length) "_fields" = true
    · simp only [hf, if_true]
      exact heapRead_append_lt h _ qAddr hq
    · simp only [hf, Bool.false_eq_true, if_false]
      rw [heapRead_write_ne _ _ _ _ _ hne]
      exact heapRead_append_lt h _ qAddr hq
  exact ⟨main, fun hx => by rw [main]; exact hx⟩

/-- C10 witness: a one-dict heap holding the caller's query; after a
one-page run the caller's dict is untouched and still has no cursor
key. -/
theorem pagination_template_frame_c10_witness :
    heapRead (getAllLeadsHeap ([[("limit", PVal.str "100")]] : Heap) 0
        ([{ data := some [1], cursor := none }] : List (PageResp Nat))).1 0 =
      heapRead ([[("limit", PVal.str "100")]] : Heap) 0 ∧
    dictHasKey (heapRead (getAllLeadsHeap ([[("limit", PVal.str "100")]] : Heap) 0
        ([{ data := some [1], cursor := none }] : List (PageResp Nat))).1 0) "cursor" = false := by
  have h := pagination_template_frame_c10 Nat [[("limit", PVal.str "100")]] 0
    [{ data := some [1], cursor := none }] (by decide)
  exact ⟨h.1, h.2 (by decide)⟩

/-- C2: a record whose eligible opportunity write succeeds but whose
subsequent lead write fails is reported as a failure (the opportunity
result is the parent-write failure, the lead's status line is the error
line, `successful_updates` is not incremented) and the printed summary
counts it under failed — `attempted − succeeded` grows by one — not
under succeeded. -/
theorem transition_atomicity_accounting_c2 (today : String) (l : LeadS) (o : OppS)
    (d : OppDetailS) (info : StatusInfo)
    (hopps : l.opps = [o]) (hdet : o.detail = some d)
    (helig : statusUpdates.lookup d.statusId = some info)
    (hchild : d.childPutOk = true) (hparent : d.parentPutOk = false) :
    (∃ u, (processLead today l).results = [OppRes.parentFailed u]) ∧
    (processLead today l).succ = 0 ∧
    (processLead today l).outcome = LeadOutcome.noEligible ∧
    (∀ rest, (runMain today (l :: rest)).succeeded = (runMain today rest).succeeded ∧
      (runMain today (l :: rest)).failedPrinted = (runMain today rest).failedPrinted + 1) := by
  obtain ⟨u, hopp⟩ : ∃ u, processOpp today o = OppRes.parentFailed u := by
    refine ⟨{ statusId := info.newStatus
              mailerDates := match d.mailerDates with
                | some s => if s ≠ "" then s ++ "," ++ today else today
                | none => today
              template := if info.template ≠ "" then some info.template else none }, ?_⟩
    simp [processOpp, hdet, helig, hchild, hparent]
  have hres : (processLead today l).results = [OppRes.parentFailed u] := by
    simp [processLead, hopps, hopp]
  have hsucc : (processLead today l).succ = 0 := by
    simp [processLead, hopps, hopp, OppRes.succCount]
  have hout : (processLead today l).outcome = LeadOutcome.noEligible := by
    simp [processLead, hopps, hopp, OppRes.isSuccess]
  refine ⟨⟨u, hres⟩, hsucc, hout, fun rest => ⟨?_, ?_⟩⟩
  · simp [runMain, hsucc]
  · simp only [runMain, List.map_cons, List.sum_cons, List.length_cons, hsucc]
    push_cast
    ring

/-- C2 witness: the concrete partial-failure lead — child write ok,
parent write failed — contributes no success and raises the printed
failed count by one. -/
theorem transition_atomicity_accounting_c2_witness :
    (processLead "05/06/2025" leadC2w).succ = 0 ∧
    (processLead "05/06/2025" leadC2w).outcome = LeadOutcome.noEligible ∧
    (runMain "05/06/2025" [leadC2w]).succeeded = (runMain "05/06/2025" []).succeeded ∧
    (runMain "05/06/2025" [leadC2w]).failedPrinted =
      (runMain "05/06/2025" ([] : List LeadS)).failedPrinted + 1 := by
  have h := transition_atomicity_accounting_c2 "05/06/2025" leadC2w
    { id := "oppo_w"
      detail := some { statusId := stat1, mailerDates := none
                       childPutOk := true, parentPutOk := false } }
    { statusId := stat1, mailerDates := none, childPutOk := true, parentPutOk := false }
    { newStatus := stat2, template := templateRound2, resetDates := false }
    rfl rfl (by decide) rfl rfl
  exact ⟨h.2.1, h.2.2.1, (h.2.2.2 []).1, (h.2.2.2 []).2⟩

set_option maxRecDepth 8000 in
/-- C1 counterexample: in the claimed scenario — 250 candidates over
three pages (100/100/50, cursor present/present/absent), exactly 40
eligible for Stage 1 → 2, every write succeeding — the orchestrator does
produce 40 successful transitions and 210 explicit ineligible outcomes
with attempted = 250 and succeeded = 40, but the printed summary's
failed count is `attempted − succeeded` = 210, not the claimed 0. -/
theorem end_to_end_summary_c1_counterexample :
    (getAllLeadsPages scriptC1).isSome = true ∧
    leadsC1.length = 250 ∧
    (runMain todayC1 leadsC1).attempted = 250 ∧
    (runMain todayC1 leadsC1).succeeded = 40 ∧
    (runMain todayC1 leadsC1).ineligible = 210 ∧
    (runMain todayC1 leadsC1).failedPrinted ≠ 0 := by
  decide

set_option maxRecDepth 8000 in
/-- C1 (amended): the scenario yields exactly 40 successful transitions
and 210 explicit ineligible outcomes, and the final summary reports
attempted = 250, succeeded = 40 and failed = 210 — the summary computes
failed as attempted − succeeded, so ineligible records count as
failed. -/
theorem end_to_end_summary_c1_amended :
    (getAllLeadsPages scriptC1).isSome = true ∧
    (runMain todayC1 leadsC1).attempted = 250 ∧
    (runMain todayC1 leadsC1).succeeded = 40 ∧
    (runMain todayC1 leadsC1).ineligible = 210 ∧
    (runMain todayC1 leadsC1).failedPrinted = 210 := by
  decide

/-- Invariant of the selection fold: any selected best candidate carries
its own parsed date key. -/
theorem selectOldestAux_key (opps : List HoldOpp) :
    ∀ (best : Option (HoldOpp × Nat)),
      (∀ p k, best = some (p, k) → holdDateKey p = some k) →
      ∀ o k, selectOldestAux best opps = some (o, k) → holdDateKey o = some k := by
  induction opps with
  | nil =>
      intro best hbest o k h
      exact hbest o k h
  | cons c rest ih =>
      intro best hbest o k h
      cases hck : holdDateKey c with
      | none =>
          simp only [selectOldestAux, hck] at h
          exact ih best hbest o k h
      | some kc =>
          cases best with
          | none =>
              simp only [selectOldestAux, hck] at h
              refine ih (some (c, kc)) ?_ o k h
              intro p k' hpk
              cases hpk
              exact hck
          | some bkb =>
              obtain ⟨b, kb⟩ := bkb
              simp only [selectOldestAux, hck] at h
              by_cases hlt : kc < kb
              · rw [if_pos hlt] at h
                refine ih (some (c, kc)) ?_ o k h
                intro p k' hpk
                cases hpk
                exact hck
              · rw [if_neg hlt] at h
                exact ih (some (b, kb)) hbest o k h

/-- C5: among Hold candidates dated "3/1/2024", "01-15-2024" and
"not-a-date", the engine selects the "01-15-2024" candidate as oldest
(its date parses via the third format, %m-%d-%Y, after the first two
fail) and excludes the unparseable one; the formats are tried in the
fixed order %m/%d/%Y, %Y-%m-%d, %m-%d-%Y, %d/%m/%Y (so "01/02/2024" is
January 2, month first); and in general any selected candidate's date
string parses in one of the accepted formats — unparseable candidates
are never selected. -/
theorem oldest_candidate_tiebreak_c5 :
    (selectOldest [⟨"o1", some "3/1/2024"⟩, ⟨"o2", some "01-15-2024"⟩, ⟨"o3", some "not-a-date"⟩] =
      some ⟨"o2", some "01-15-2024"⟩) ∧
    parseCitationDate "3/1/2024" = some ⟨2024, 3, 1⟩ ∧
    parseCitationDate "01-15-2024" = some ⟨2024, 1, 15⟩ ∧
    parseCitationDate "not-a-date" = none ∧
    parseCitationDate "01/02/2024" = some ⟨2024, 1, 2⟩ ∧
    (∀ (opps : List HoldOpp) (o : HoldOpp),
      selectOldest opps = some o → (holdDateKey o).isSome = true) := by
  refine ⟨by decide, by decide, by decide, by decide, by decide, ?_⟩
  intro opps o h
  unfold selectOldest at h
  cases haux : selectOldestAux none opps with
  | none => rw [haux] at h; cases h
  | some pk =>
      obtain ⟨p, k⟩ := pk
      rw [haux] at h
      have hpo : p = o := by simpa using h
      have hkey := selectOldestAux_key opps none (by intro p' k' hpk; cases hpk) p k haux
      rw [hpo] at hkey
      rw [hkey]
      rfl

/-- The audit note is never empty: it always carries the fixed HTML
wrapper. -/
theorem errorNoteHtml_ne_empty (today msg : String) : errorNoteHtml today msg ≠ "" := by
  intro hcontra
  have h1 : (errorNoteHtml today msg).length = 0 := by rw [hcontra]; rfl
  unfold errorNoteHtml at h1
  rw [String.length_append, String.length_append, String.length_append,
    String.length_append] at h1
  have h2 : 0 < ("<body><p><strong>PostGrid Error (" : String).length := by decide
  omega

/-- C6: every mailer lead that hits an unexpected condition — a raised
exception, falsy lead data, a missing template, a missing required
contact field, or a vendor call that does not succeed — is moved to the
terminal Error stage with a non-empty audit note, contributes one to the
failed count and nothing to the succeeded count, and the run continues:
the remaining leads are all still processed. -/
theorem terminal_error_stage_c6 (today : String) (s : MailerLeadS)
    (h : unexpectedCondition s) :
    (processMailerLead today s).succInc = 0 ∧
    (processMailerLead today s).failInc = 1 ∧
    (∃ a, (processMailerLead today s).errorAction = some a ∧
      a.statusId = errorStatusId ∧ a.noteHtml ≠ "") ∧
    (∀ rest, (runMailer today (s :: rest)).processed = rest.length + 1 ∧
      (runMailer today (s :: rest)).fail = 1 + (runMailer today rest).fail ∧
      (runMailer today (s :: rest)).succ = (runMailer today rest).succ ∧
      ∃ a, (runMailer today (s :: rest)).errors = a :: (runMailer today rest).errors) := by
  have key : (processMailerLead today s).succInc = 0 ∧
      (processMailerLead today s).failInc = 1 ∧
      ∃ msg, (processMailerLead today s).errorAction = some (mkErrAct today msg) := by
    rcases h with ⟨msg, hf⟩ | hf | ⟨d, hf, hfield⟩ | ⟨d, hf, ht, h1, h2, h3, hpg⟩
    · refine ⟨?_, ?_, msg, ?_⟩ <;> simp [processMailerLead, hf]
    · refine ⟨?_, ?_, "No data found", ?_⟩ <;> simp [processMailerLead, hf]
    · by_cases ht : d.template = ""
      · refine ⟨?_, ?_, "No template ID found", ?_⟩ <;> simp [processMailerLead, hf, ht]
      · have hc : d.firstName = "" ∨ d.lastName = "" ∨ d.address = "" := by
          rcases hfield with h | h
          · exact absurd h ht
          · exact h
        refine ⟨?_, ?_, "Missing required contact information", ?_⟩ <;>
          simp [processMailerLead, hf, ht, hc]
    · cases hpgc : s.postgrid with
      | none =>
          refine ⟨?_, ?_, "Error Unknown - Failed to connect", ?_⟩ <;>
            simp [processMailerLead, hf, ht, h1, h2, h3, hpgc]
      | some pg =>
          cases pg with
          | success lid => exact absurd hpgc (hpg lid)
          | failure code msg =>
              refine ⟨?_, ?_, "Error " ++ pgCodeStr code ++ " - " ++ msg, ?_⟩ <;>
                simp [processMailerLead, hf, ht, h1, h2, h3, hpgc]
  obtain ⟨ksucc, kfail, msg, kerr⟩ := key
  refine ⟨ksucc, kfail, ⟨mkErrAct today msg, kerr, rfl, errorNoteHtml_ne_empty today msg⟩,
    fun rest => ⟨by simp [runMailer], ?_, ?_, ?_⟩⟩
  · simp [runMailer, kfail]
  · simp [runMailer, ksucc]
  · exact ⟨mkErrAct today msg, by simp [runMailer, kerr]⟩

/-- C6 witness: a lead whose resolved data lacks a template id is routed
to the Error stage with a non-empty note, counted failed, and the run
still processes the rest of the list. -/
theorem terminal_error_stage_c6_witness :
    (processMailerLead "05/06/2025" mailerLeadC6w).succInc = 0 ∧
    (processMailerLead "05/06/2025" mailerLeadC6w).failInc = 1 ∧
    (∃ a, (processMailerLead "05/06/2025" mailerLeadC6w).errorAction = some a ∧
      a.statusId = errorStatusId ∧ a.noteHtml ≠ "") ∧
    (runMailer "05/06/2025" [mailerLeadC6w]).processed = 1 := by
  have hd : mailerLeadC6w.fetch =
      LeadFetchOutcome.ok (some { template := "", firstName := "Ann", lastName := "Lee", address := "1 Main St" }) :=
    rfl
  have h := terminal_error_stage_c6 "05/06/2025" mailerLeadC6w
    (Or.inr (Or.inr (Or.inl ⟨_, hd, Or.inl rfl⟩)))
  exact ⟨h.1, h.2.1, h.2.2.1, (h.2.2.2 []).1⟩

/-- C8: the cross-account lookup consults only the first lead the second
account's search returns (its value is independent of the tail of the
result list); no matching lead, and a matched lead with no addresses,
both yield the `None` "no data" outcome rather than an error; and on a
`None` outcome the caller records "no business address" and skips the
update (the updated count does not move). -/
theorem cross_source_first_match_c8 :
    (∀ (lotUid : String) (ok : Bool) (first : String) (rest rest2 : List String)
        (detail : String → Option PtLead),
      getBusinessAddressFromPt lotUid { searchOk := ok, results := first :: rest, detail := detail } =
        getBusinessAddressFromPt lotUid { searchOk := ok, results := first :: rest2, detail := detail }) ∧
    (∀ (lotUid : String) (ok : Bool) (detail : String → Option PtLead),
      getBusinessAddressFromPt lotUid { searchOk := ok, results := [], detail := detail } = none) ∧
    (∀ (lotUid : String) (env : PtEnv) (first : String) (rst : List String) (lead : PtLead),
      env.results = first :: rst → env.detail first = some lead → lead.addresses = [] →
      getBusinessAddressFromPt lotUid env = none) ∧
    (∀ (o : MLOppS) (u : String),
      o.detailOk = true → o.lotAddress = none → o.lotUid = some u →
      u ≠ "" → pyStrip u ≠ "" →
      getBusinessAddressFromPt u o.ptEnv = none →
      processMLOpp o = (MLAction.noBusinessAddress, 0)) := by
  refine ⟨?_, ?_, ?_, ?_⟩
  · intro lotUid ok first rest rest2 detail
    rfl
  · intro lotUid ok detail
    unfold getBusinessAddressFromPt
    split_ifs <;> rfl
  · intro lotUid env first rst lead hres hdet haddr
    unfold getBusinessAddressFromPt
    split_ifs with h1 h2
    · rfl
    · rfl
    · rw [hres]
      simp only [hdet, haddr, List.find?_nil]
  · intro o u hok hla hlu hne hstrip hlookup
    simp only [processMLOpp, hok, Bool.true_eq_false, if_false, hla, processMLOppMissing, hlu]
    rw [if_neg (by rw [not_or]; exact ⟨hne, hstrip⟩)]
    rw [hlookup]

/-- `cumFO` is the length of the concatenation of the first `k` pages'
resolved leads. -/
theorem cumFO_eq_flatten_length (α : Type) :
    ∀ (pages : List (FOPage α)) (k : Nat),
      (((pages.take k).map FOPage.resolved).flatten).length = cumFO pages k := by
  intro pages
  induction pages with
  | nil => intro k; cases k <;> simp [cumFO]
  | cons p rest ih =>
      intro k
      cases k with
      | zero => simp [cumFO]
      | succ k =>
          simp only [cumFO, List.take_succ_cons, List.map_cons, List.flatten_cons,
            List.length_append, ih k]

/-- The loop of get_leads_with_data, run from an arbitrary accumulator:
when the cumulative total first exceeds the target inside page `k`, the
loop returns the accumulator extended by the first `k+1` whole pages. -/
theorem getLeadsWithDataLoop_reach (α : Type) (target : Nat) :
    ∀ (k : Nat) (pages : List (FOPage α)) (acc : List α),
      k < pages.length →
      (∀ i, i < k → cursorTruthy ((pages.getD i { resolved := [], cursor := none }).cursor) = true) →
      acc.length + cumFO pages k < target →
      target < acc.length + cumFO pages (k + 1) →
      getLeadsWithDataLoop target acc pages =
        acc ++ ((pages.take (k + 1)).map FOPage.resolved).flatten := by
  intro k
  induction k with
  | zero =>
      intro pages acc hk hcur hb ha
      cases pages with
      | nil => simp at hk
      | cons p rest =>
          have hreach : target ≤ (acc ++ p.resolved).length := by
            simp only [cumFO] at ha
            simp only [List.length_append]
            omega
          simp only [getLeadsWithDataLoop]
          rw [if_pos hreach]
          simp
  | succ k ih =>
      intro pages acc hk hcur hb ha
      cases pages with
      | nil => simp at hk
      | cons p rest =>
          have hc0 : cursorTruthy p.cursor = true := by
            have := hcur 0 (Nat.succ_pos k)
            simpa using this
          have hnot : ¬(target ≤ (acc ++ p.resolved).length) := by
            simp only [cumFO] at hb
            simp only [List.length_append]
            omega
          rw [getLeadsWithDataLoop]
          simp only [if_neg hnot, hc0, if_true]
          rw [ih rest (acc ++ p.resolved) (by simpa using hk)
            (fun i hi => by simpa using hcur (i + 1) (by omega))
            (by simp only [cumFO] at hb; simp only [List.length_append]; omega)
            (by simp only [cumFO] at ha; simp only [List.length_append]; omega)]
          simp [List.take_succ_cons, List.append_assoc]

/-- C9: the accumulated total is checked only after an entire page's
resolved leads have been appended, so the returned list is a
concatenation of whole pages; when the page that reaches the target
overshoots it, the function returns all of that final page — strictly
more than target_count leads. -/
theorem target_count_no_truncation_c9 (α : Type) (pages : List (FOPage α)) (target k : Nat)
    (hk : k < pages.length)
    (hcur : ∀ i, i < k → cursorTruthy ((pages.getD i { resolved := [], cursor := none }).cursor) = true)
    (hbefore : cumFO pages k < target)
    (hafter : target < cumFO pages (k + 1)) :
    getLeadsWithData target pages = ((pages.take (k + 1)).map FOPage.resolved).flatten ∧
    target < (getLeadsWithData target pages).length := by
  have hmain := getLeadsWithDataLoop_reach α target k pages [] hk hcur
    (by simpa using hbefore) (by simpa using hafter)
  have h1 : getLeadsWithData target pages = ((pages.take (k + 1)).map FOPage.resolved).flatten := by
    simpa [getLeadsWithData] using hmain
  refine ⟨h1, ?_⟩
  rw [h1, cumFO_eq_flatten_length]
  exact hafter

/-- C9 witness: two pages of 2 and 3 resolved leads with target 3 — the
second page pushes the total past the target and is returned whole: 5
leads, strictly more than 3. -/
theorem target_count_no_truncation_c9_witness :
    getLeadsWithData 3
      [({ resolved := ["a", "b"], cursor := some "c1" } : FOPage String),
        { resolved := ["c", "d", "e"], cursor := none }] = ["a", "b", "c", "d", "e"] ∧
    3 < (getLeadsWithData 3
      [({ resolved := ["a", "b"], cursor := some "c1" } : FOPage String),
        { resolved := ["c", "d", "e"], cursor := none }]).length := by
  have h := target_count_no_truncation_c9 String
    [{ resolved := ["a", "b"], cursor := some "c1" }, { resolved := ["c", "d", "e"], cursor := none }]
    3 1 (by decide)
    (by intro i hi
        have h0 : i = 0 := Nat.lt_one_iff.mp hi
        subst h0
        decide)
    (by decide) (by decide)
  exact ⟨h.1.trans (by decide), h.2⟩
